import Mathlib

/-!
Verification of `src/lib/crypto/OSSLCryptoFactory.cpp` (SoftHSMv2, TPM fork).

The C++ file is shallowly embedded as pure Lean functions.  External calls
(dlopen, dlsym, the TCTI initializer, calloc, the TSS2 system API, the
OpenSSL engine API) are modelled by explicit environment records holding the
outcome each external call would produce; process-wide mutable statics
(`handle`, `info`, `tcti`, `nlocks`, `locks`, the OpenSSL locking-callback
slot) are modelled by explicit state records threaded through the functions.
Side effects that matter for the specification (dlclose, buffer
allocation/free, context finalization, log messages) are recorded in event
traces returned alongside the new state.

The modelled build configuration is the one of the source file itself:
`USE_TPM` and `DISABLE_DLCLOSE` are defined by the file, `WITH_GOST` is
taken as enabled, the OpenSSL version is taken below 1.1.0 so that the
locking-callback block is compiled, and `WITH_FIPS` is taken as disabled.
-/

namespace OSSLSpec

/-- `TPM2_RC_SUCCESS` / `TSS2_RC_SUCCESS`: the success return code (0). -/
def TPM2_RC_SUCCESS : Nat := 0

/-- `TSS2_RC_SUCCESS`: the success return code of the TSS2 system API (0). -/
def TSS2_RC_SUCCESS : Nat := 0

/-- `PATH_MAX`: size of the on-stack path buffer in `tpm2_tcti_ldr_dlopen`. -/
def PATH_MAX : Nat := 4096

/-- `CRYPTO_LOCK`: the acquire bit OpenSSL sets in the locking callback's
`mode` argument. -/
def CRYPTO_LOCK : Nat := 1

/-- `DISABLE_DLCLOSE` is defined in the source file, so the `dlclose` call in
`tpm2_tcti_ldr_unload` is compiled out. -/
def DISABLE_DLCLOSE : Bool := true

/-- The string literal passed to `tpm2_tcti_ldr_load` by the constructor. -/
def tabrmd : String := "tabrmd"

/-- Result of expanding the format string `TSS2_TCTI_SO_FORMAT`
(`libtss2-tcti-%s.so.0`) with a transport name. -/
def tcti_so_name (name : String) : String :=
  "libtss2-tcti-" ++ name ++ ".so.0"

/-- An opaque TCTI transport context; it records only the size the buffer
was allocated with (`calloc(1, size)`). -/
structure TctiContext where
  size : Nat
deriving DecidableEq, Repr

/-- The three process-wide statics of the TPM bridge: `static void *handle`,
`static const TSS2_TCTI_INFO *info`, `static TSS2_TCTI_CONTEXT *tcti`.
Pointers are modelled as `Option Nat` / `Option TctiContext`, `none` being
`NULL`. -/
structure TpmGlobals where
  handle : Option Nat
  info : Option Nat
  tcti : Option TctiContext
deriving DecidableEq, Repr

/-- Externally observable side effects recorded by the embedding. -/
inductive Event where
  /-- a `dlclose` call on the loaded module -/
  | dlcloseEv
  /-- `calloc(1, size)` allocating the TCTI context buffer -/
  | callocBuf (size : Nat)
  /-- `free` of the TCTI context buffer inside `tpm2_tcti_ldr_load` -/
  | freeBuf
  /-- `Tss2_Sys_GetTctiContext(context, &tcti_ctx)` in the destructor -/
  | getTctiCtx
  /-- `Tss2_Sys_Finalize(context)` in the destructor -/
  | sysFinalize
  /-- `free(context)` in the destructor -/
  | freeSysContext
  /-- `Tss2_Tcti_Finalize(tcti_ctx)` in the destructor -/
  | tctiFinalize
  /-- `free(tcti_ctx)` in the destructor -/
  | freeTctiCtx
  /-- entry into `tpm2_tcti_ldr_unload()` (where the loader statics are
  cleared) -/
  | ldrUnloadEv
deriving DecidableEq, Repr

/-- Outcomes of the external calls made during one `tpm2_tcti_ldr_load` run:
the two `dlopen` attempts, the `dlsym` lookup, the info pointer returned by
the info function, the return codes and reported size of the two-phase
initializer, and whether `calloc` succeeds. -/
structure LoadEnv where
  /-- result of `dlopen(path, RTLD_LAZY)` on the verbatim path -/
  dlopenDirect : Option Nat
  /-- result of `dlopen` on the `TSS2_TCTI_SO_FORMAT`-expanded name -/
  dlopenFmt : Option Nat
  /-- whether `dlsym(handle, TSS2_TCTI_INFO_SYMBOL)` resolves -/
  dlsymInfoFn : Bool
  /-- the pointer returned by the resolved info function -/
  infoPtr : Nat
  /-- return code of the first (null-buffer, sizing) initializer call -/
  initSizeRc : Nat
  /-- the size the first initializer call writes through its out-pointer -/
  reportedSize : Nat
  /-- whether `calloc(1, size)` returns a buffer -/
  callocOk : Bool
  /-- return code of the second (allocated-buffer) initializer call -/
  initRc : Nat
deriving DecidableEq, Repr

/-- `tpm2_tcti_ldr_unload`: if a plugin handle is held, clear the `handle`
and `info` statics; the `dlclose` call is compiled out because
`DISABLE_DLCLOSE` is defined. -/
def tpm2_tcti_ldr_unload (s : TpmGlobals) : TpmGlobals × List Event :=
  if s.handle.isSome then
    ({ s with handle := none, info := none },
     if DISABLE_DLCLOSE then [] else [Event.dlcloseEv])
  else
    (s, [])

/-- `tpm2_tcti_ldr_dlopen`: `snprintf` the name into the fixed naming
convention; if the formatted name would not fit in `PATH_MAX`, fail without
attempting the open; otherwise the open's outcome is the environment's. -/
def tpm2_tcti_ldr_dlopen (name : String) (fmtOutcome : Option Nat) : Option Nat :=
  if (tcti_so_name name).length ≥ PATH_MAX then none else fmtOutcome

/-- `tpm2_tcti_ldr_is_tcti_present`: open the module named by the fixed
naming convention into a local variable (shadowing the static `handle`),
close it immediately when it opened, and return whether the open succeeded.
The process-wide state `s` is returned untouched. -/
def tpm2_tcti_ldr_is_tcti_present (name : String) (fmtOutcome : Option Nat)
    (s : TpmGlobals) : Bool × TpmGlobals × List Event :=
  let h := tpm2_tcti_ldr_dlopen name fmtOutcome
  (h.isSome, s, if h.isSome then [Event.dlcloseEv] else [])

/-- `tpm2_tcti_ldr_load`: refuse when a plugin handle is already held;
otherwise `dlopen` the verbatim path, falling back to the formatted name;
resolve the info symbol; call the initializer once with a null buffer to
size the context, `calloc` the buffer, and call the initializer again for
real.  Each failure path after a successful open calls `dlclose` directly
(`free` of a null `tcti_ctx` is a no-op and is not recorded) — and, exactly
as in the source, leaves the `handle` and `info` statics as they were at
that point instead of clearing them. -/
def tpm2_tcti_ldr_load (path : String) (env : LoadEnv) (s : TpmGlobals) :
    Option TctiContext × TpmGlobals × List Event :=
  if s.handle.isSome then
    (none, s, [])
  else
    match (match env.dlopenDirect with
           | some h => some h
           | none => tpm2_tcti_ldr_dlopen path env.dlopenFmt) with
    | none => (none, s, [])
    | some h =>
      let s1 : TpmGlobals := { s with handle := some h }
      if env.dlsymInfoFn = false then
        (none, s1, [Event.dlcloseEv])
      else
        let s2 : TpmGlobals := { s1 with info := some env.infoPtr }
        if env.initSizeRc ≠ TPM2_RC_SUCCESS then
          (none, s2, [Event.dlcloseEv])
        else if env.callocOk = false then
          (none, s2, [Event.dlcloseEv])
        else if env.initRc ≠ TPM2_RC_SUCCESS then
          (none, s2, [Event.callocBuf env.reportedSize, Event.freeBuf,
                      Event.dlcloseEv])
        else
          (some ⟨env.reportedSize⟩, s2, [Event.callocBuf env.reportedSize])

/-- Who installed the OpenSSL locking callback currently sitting in the
global slot (`CRYPTO_get_locking_callback`). -/
inductive CbOwner where
  /-- our `lock_callback`, installed by the factory constructor -/
  | ours
  /-- a callback installed by another component -/
  | other
deriving DecidableEq, Repr

/-- The remaining process-wide statics touched by the factory: the lock
bridge's `nlocks` and `locks` (each mutex modelled by a `Bool`, `true` when
held), the OpenSSL locking-callback slot, and the TPM statics. -/
structure GlobalState where
  nlocks : Nat
  locks : List Bool
  lockCb : Option CbOwner
  tpm : TpmGlobals
deriving DecidableEq, Repr

/-- Conversion of a C `int` to `unsigned`: reduction modulo `2^32`. -/
def uint_of_int (n : Int) : Nat :=
  (n % 4294967296).toNat

/-- `lock_callback(mode, n, file, line)`: reject (log and return) when the
unsigned reinterpretation of `n` is at or above `nlocks`; otherwise lock the
mutex at that index when the `CRYPTO_LOCK` bit of `mode` is set and unlock
it otherwise.  The returned `Bool` records whether the error was logged. -/
def lock_callback (mode : Nat) (n : Int) (g : GlobalState) : GlobalState × Bool :=
  if uint_of_int n ≥ g.nlocks then
    (g, true)
  else if Nat.land mode CRYPTO_LOCK ≠ 0 then
    ({ g with locks := g.locks.set (uint_of_int n) true }, false)
  else
    ({ g with locks := g.locks.set (uint_of_int n) false }, false)

/-- The member variables of `OSSLCryptoFactory` the embedding tracks:
`setLockingCallback`, `rdrand_engine`, the RNG member, the TSS2 system
context member (`none` when never assigned or assigned `NULL`; the value is
the size passed to `calloc`), the GOST engine handle `eg`, and the GOST
digest `EVP_GOST_34_11`. -/
structure OSSLCryptoFactory where
  setLockingCallback : Bool
  rdrand_engine : Option Nat
  rngCreated : Bool
  context : Option Nat
  eg : Option Nat
  EVP_GOST_34_11 : Option Nat
deriving DecidableEq, Repr

/-- Outcomes of the external calls made during one constructor run. -/
structure CtorEnv where
  /-- `CRYPTO_num_locks()` -/
  numLocks : Nat
  /-- whether `ENGINE_by_id("rdrand")` finds the engine -/
  rdrandFound : Bool
  /-- outcomes for the `tpm2_tcti_ldr_load("tabrmd")` call -/
  tpmLoad : LoadEnv
  /-- `Tss2_Sys_GetContextSize(0)` -/
  sysContextSize : Nat
  /-- whether `calloc(1, size)` for the system context succeeds -/
  sysCallocOk : Bool
  /-- return code of `Tss2_Sys_Initialize` -/
  sysInitRc : Nat
  /-- whether `ENGINE_by_id("gost")` finds the engine -/
  gostEngineFound : Bool
  /-- whether `ENGINE_init(eg)` returns a positive value -/
  gostInitOk : Bool
  /-- whether `ENGINE_get_digest(eg, NID_id_GostR3411_94)` is non-null -/
  gostDigestFound : Bool
  /-- whether `ENGINE_register_pkey_asn1_meths(eg)` returns a positive value -/
  gostRegisterOk : Bool
  /-- whether `ENGINE_ctrl_cmd_string(eg, "CRYPT_PARAMS", ...)` succeeds -/
  gostParamsOk : Bool
deriving DecidableEq, Repr

/-- Milestones and log messages of one constructor run, in program order. -/
inductive CtorStep where
  /-- lock-pool allocation and conditional callback installation -/
  | lockSetup
  /-- `ENGINE_load_rdrand` / `ENGINE_by_id("rdrand")` block -/
  | rdrandSetup
  /-- `rng = new OSSLRNG()` -/
  | rngCreate
  /-- entry into the `USE_TPM` block -/
  | tpmAttempt
  /-- `Tss2_Sys_Initialize` succeeded: the TPM command context is up -/
  | tpmOk
  /-- entry into the `WITH_GOST` block -/
  | gostAttempt
  /-- the GOST engine is fully configured -/
  | gostOk
  /-- `ERROR_MSG("OSSLCryptoFactory: TPM2 Failed!")` (transport load failed) -/
  | logTpmFailed1
  /-- `ERROR_MSG("OSSLCryptoFactory: TPM2 Failed 2!")` (context calloc failed) -/
  | logTpmFailed2
  /-- `ERROR_MSG("OSSLCryptoFactory: TPM2 Failed 3!")` (`Tss2_Sys_Initialize` failed) -/
  | logTpmFailed3
  /-- `ERROR_MSG("can't get the GOST engine")` -/
  | logGostNoEngine
  /-- `ERROR_MSG("can't initialize the GOST engine")` -/
  | logGostInitFailed
  /-- `ERROR_MSG("can't get the GOST digest")` -/
  | logGostNoDigest
  /-- `ERROR_MSG("can't register ASN.1 for the GOST engine")` -/
  | logGostRegisterFailed
  /-- `ERROR_MSG("can't set params of the GOST engine")` -/
  | logGostParamsFailed
deriving DecidableEq, Repr

/-- The constructor from the `USE_TPM` block on: load the transport, size
and `calloc` the system context, `Tss2_Sys_Initialize` it, then run the
`WITH_GOST` block.  Each failing step issues `return`, ending the
constructor body early, exactly as in the source: a transport/context
failure therefore never reaches the GOST block. -/
def construct_tpm_gost (env : CtorEnv) (f : OSSLCryptoFactory) (g : GlobalState)
    (steps : List CtorStep) : OSSLCryptoFactory × GlobalState × List CtorStep :=
  let steps1 := steps ++ [CtorStep.tpmAttempt]
  let lr := tpm2_tcti_ldr_load tabrmd env.tpmLoad g.tpm
  let g1 : GlobalState := { g with tpm := { lr.2.1 with tcti := lr.1 } }
  match lr.1 with
  | none => (f, g1, steps1 ++ [CtorStep.logTpmFailed1])
  | some _ =>
    if env.sysCallocOk = false then
      (f, g1, steps1 ++ [CtorStep.logTpmFailed2])
    else
      let f1 := { f with context := some env.sysContextSize }
      if env.sysInitRc ≠ TSS2_RC_SUCCESS then
        (f1, g1, steps1 ++ [CtorStep.logTpmFailed3])
      else
        let steps2 := steps1 ++ [CtorStep.tpmOk, CtorStep.gostAttempt]
        if env.gostEngineFound = false then
          (f1, g1, steps2 ++ [CtorStep.logGostNoEngine])
        else if env.gostInitOk = false then
          (f1, g1, steps2 ++ [CtorStep.logGostInitFailed])
        else
          let f2 := { f1 with eg := some 1 }
          if env.gostDigestFound = false then
            ({ f2 with eg := none }, g1, steps2 ++ [CtorStep.logGostNoDigest])
          else
            let f3 := { f2 with EVP_GOST_34_11 := some 1 }
            if env.gostRegisterOk = false then
              ({ f3 with eg := none }, g1, steps2 ++ [CtorStep.logGostRegisterFailed])
            else if env.gostParamsOk = false then
              ({ f3 with eg := none }, g1, steps2 ++ [CtorStep.logGostParamsFailed])
            else
              (f3, g1, steps2 ++ [CtorStep.gostOk])

/-- `OSSLCryptoFactory::OSSLCryptoFactory()`: allocate the lock pool,
install the locking callback only when the global slot is empty (recording
in `setLockingCallback` whether we installed it), set up the rdrand engine
(its init/set-default failures only warn), create the RNG, then run the
TPM and GOST bring-up. -/
def OSSLCryptoFactory.construct (env : CtorEnv) (g0 : GlobalState) :
    OSSLCryptoFactory × GlobalState × List CtorStep :=
  let g1 : GlobalState :=
    { g0 with nlocks := env.numLocks, locks := List.replicate env.numLocks false }
  let installs := g1.lockCb.isNone
  let g2 : GlobalState :=
    { g1 with lockCb := if installs then some CbOwner.ours else g1.lockCb }
  let f : OSSLCryptoFactory :=
    { setLockingCallback := installs
      rdrand_engine := if env.rdrandFound then some 1 else none
      rngCreated := true
      context := none
      eg := none
      EVP_GOST_34_11 := none }
  construct_tpm_gost env f g2
    [CtorStep.lockSetup, CtorStep.rdrandSetup, CtorStep.rngCreate]

/-- Outcomes of the external calls made during one destructor run. -/
structure DtorEnv where
  /-- return code of `Tss2_Sys_GetTctiContext(context, &tcti_ctx)` -/
  getTctiRc : Nat
  /-- the value it writes through `&tcti_ctx` on success -/
  retrievedTcti : Option TctiContext
deriving DecidableEq, Repr

/-- `OSSLCryptoFactory::~OSSLCryptoFactory()`: retrieve the nested TCTI
context from the system context (treating it as absent when the retrieval
call fails), finalize the system context and free its buffer, then — only
when a nested context was retrieved — finalize and free it, then call
`tpm2_tcti_ldr_unload`.  After that: GOST engine finish/free, RNG delete
(neither has modelled global state), locking-callback removal only when
this instance installed it, and lock-pool release (`delete[] locks`). -/
def OSSLCryptoFactory.destruct (f : OSSLCryptoFactory) (env : DtorEnv)
    (g : GlobalState) : GlobalState × List Event :=
  let tcti_ctx : Option TctiContext :=
    if env.getTctiRc = TSS2_RC_SUCCESS then env.retrievedTcti else none
  let ur := tpm2_tcti_ldr_unload g.tpm
  let evs := [Event.getTctiCtx, Event.sysFinalize, Event.freeSysContext]
    ++ (if tcti_ctx.isSome then [Event.tctiFinalize, Event.freeTctiCtx] else [])
    ++ [Event.ldrUnloadEv] ++ ur.2
  ({ nlocks := g.nlocks
     locks := []
     lockCb := if f.setLockingCallback then none else g.lockCb
     tpm := ur.1 }, evs)

/-- The `static std::auto_ptr<OSSLCryptoFactory> instance` slot.  Instance
identity is modelled by a fresh number allocated at each construction
(`nextId` counts constructions); the slot holds the id of the live
instance, `none` when empty. -/
structure SingletonState where
  instSlot : Option Nat
  nextId : Nat
deriving DecidableEq, Repr

/-- `OSSLCryptoFactory::i()`: if the slot is empty, construct a new instance
into it; return the instance in the slot. -/
def OSSLCryptoFactory.i (s : SingletonState) : Nat × SingletonState :=
  match s.instSlot with
  | none => (s.nextId, ⟨some s.nextId, s.nextId + 1⟩)
  | some x => (x, s)

/-- `OSSLCryptoFactory::reset()`: destroy the instance and clear the slot. -/
def OSSLCryptoFactory.reset (s : SingletonState) : SingletonState :=
  { s with instSlot := none }

/-- Which optional features the build enables (`WITH_ECC`, `WITH_GOST`,
`WITH_EDDSA`). -/
structure BuildConfig where
  withECC : Bool
  withGOST : Bool
  withEDDSA : Bool
deriving DecidableEq, Repr

/-- `SymAlgo::Type`: the kinds handled by the dispatch switch; `Unknown`
stands for any value outside the handled set. -/
inductive SymAlgoType where
  | Unknown | AES | DES | DES3
deriving DecidableEq, Repr

/-- `AsymAlgo::Type`: the kinds handled by the dispatch switch; `Unknown`
stands for any value outside the handled set. -/
inductive AsymAlgoType where
  | Unknown | RSA | DSA | DH | ECDH | ECDSA | GOST | EDDSA
deriving DecidableEq, Repr

/-- `HashAlgo::Type`: the kinds handled by the dispatch switch; `Unknown`
stands for any value outside the handled set. -/
inductive HashAlgoType where
  | Unknown | MD5 | SHA1 | SHA224 | SHA256 | SHA384 | SHA512 | GOST
deriving DecidableEq, Repr

/-- `MacAlgo::Type`: the kinds handled by the dispatch switch; `Unknown`
stands for any value outside the handled set. -/
inductive MacAlgoType where
  | Unknown | HMAC_MD5 | HMAC_SHA1 | HMAC_SHA224 | HMAC_SHA256
  | HMAC_SHA384 | HMAC_SHA512 | HMAC_GOST | CMAC_DES | CMAC_AES
deriving DecidableEq, Repr

/-- The concrete symmetric-algorithm classes the factory constructs. -/
inductive SymProduct where
  | OSSLAES | OSSLDES
deriving DecidableEq, Repr

/-- The concrete asymmetric-algorithm classes the factory constructs. -/
inductive AsymProduct where
  | OSSLRSA | OSSLDSA | OSSLDH | OSSLECDH | OSSLECDSA | OSSLGOST | OSSLEDDSA
deriving DecidableEq, Repr

/-- The concrete hash-algorithm classes the factory constructs. -/
inductive HashProduct where
  | OSSLMD5 | OSSLSHA1 | OSSLSHA224 | OSSLSHA256 | OSSLSHA384 | OSSLSHA512
  | OSSLGOSTR3411
deriving DecidableEq, Repr

/-- The concrete MAC-algorithm classes the factory constructs. -/
inductive MacProduct where
  | OSSLHMACMD5 | OSSLHMACSHA1 | OSSLHMACSHA224 | OSSLHMACSHA256
  | OSSLHMACSHA384 | OSSLHMACSHA512 | OSSLHMACGOSTR3411
  | OSSLCMACDES | OSSLCMACAES
deriving DecidableEq, Repr

/-- `OSSLCryptoFactory::getSymmetricAlgorithm`: the product constructed
(`none` for `NULL`) and whether the unknown-algorithm error was logged. -/
def getSymmetricAlgorithm : SymAlgoType → Option SymProduct × Bool
  | SymAlgoType.AES => (some SymProduct.OSSLAES, false)
  | SymAlgoType.DES => (some SymProduct.OSSLDES, false)
  | SymAlgoType.DES3 => (some SymProduct.OSSLDES, false)
  | SymAlgoType.Unknown => (none, true)

/-- `OSSLCryptoFactory::getAsymmetricAlgorithm`: kinds whose case labels
are compiled out by a disabled build feature fall through to the logging
default branch. -/
def getAsymmetricAlgorithm (cfg : BuildConfig) :
    AsymAlgoType → Option AsymProduct × Bool
  | AsymAlgoType.RSA => (some AsymProduct.OSSLRSA, false)
  | AsymAlgoType.DSA => (some AsymProduct.OSSLDSA, false)
  | AsymAlgoType.DH => (some AsymProduct.OSSLDH, false)
  | AsymAlgoType.ECDH =>
    if cfg.withECC then (some AsymProduct.OSSLECDH, false) else (none, true)
  | AsymAlgoType.ECDSA =>
    if cfg.withECC then (some AsymProduct.OSSLECDSA, false) else (none, true)
  | AsymAlgoType.GOST =>
    if cfg.withGOST then (some AsymProduct.OSSLGOST, false) else (none, true)
  | AsymAlgoType.EDDSA =>
    if cfg.withEDDSA then (some AsymProduct.OSSLEDDSA, false) else (none, true)
  | AsymAlgoType.Unknown => (none, true)

/-- `OSSLCryptoFactory::getHashAlgorithm`. -/
def getHashAlgorithm (cfg : BuildConfig) :
    HashAlgoType → Option HashProduct × Bool
  | HashAlgoType.MD5 => (some HashProduct.OSSLMD5, false)
  | HashAlgoType.SHA1 => (some HashProduct.OSSLSHA1, false)
  | HashAlgoType.SHA224 => (some HashProduct.OSSLSHA224, false)
  | HashAlgoType.SHA256 => (some HashProduct.OSSLSHA256, false)
  | HashAlgoType.SHA384 => (some HashProduct.OSSLSHA384, false)
  | HashAlgoType.SHA512 => (some HashProduct.OSSLSHA512, false)
  | HashAlgoType.GOST =>
    if cfg.withGOST then (some HashProduct.OSSLGOSTR3411, false) else (none, true)
  | HashAlgoType.Unknown => (none, true)

/-- `OSSLCryptoFactory::getMacAlgorithm`. -/
def getMacAlgorithm (cfg : BuildConfig) :
    MacAlgoType → Option MacProduct × Bool
  | MacAlgoType.HMAC_MD5 => (some MacProduct.OSSLHMACMD5, false)
  | MacAlgoType.HMAC_SHA1 => (some MacProduct.OSSLHMACSHA1, false)
  | MacAlgoType.HMAC_SHA224 => (some MacProduct.OSSLHMACSHA224, false)
  | MacAlgoType.HMAC_SHA256 => (some MacProduct.OSSLHMACSHA256, false)
  | MacAlgoType.HMAC_SHA384 => (some MacProduct.OSSLHMACSHA384, false)
  | MacAlgoType.HMAC_SHA512 => (some MacProduct.OSSLHMACSHA512, false)
  | MacAlgoType.HMAC_GOST =>
    if cfg.withGOST then (some MacProduct.OSSLHMACGOSTR3411, false) else (none, true)
  | MacAlgoType.CMAC_DES => (some MacProduct.OSSLCMACDES, false)
  | MacAlgoType.CMAC_AES => (some MacProduct.OSSLCMACAES, false)
  | MacAlgoType.Unknown => (none, true)

/-- Which symmetric kinds the build supports (from the switch structure:
no build flag guards any symmetric case). -/
def symSupported : SymAlgoType → Bool
  | SymAlgoType.Unknown => false
  | _ => true

/-- Which asymmetric kinds the build supports (from the `#ifdef` structure
of the switch). -/
def asymSupported (cfg : BuildConfig) : AsymAlgoType → Bool
  | AsymAlgoType.RSA => true
  | AsymAlgoType.DSA => true
  | AsymAlgoType.DH => true
  | AsymAlgoType.ECDH => cfg.withECC
  | AsymAlgoType.ECDSA => cfg.withECC
  | AsymAlgoType.GOST => cfg.withGOST
  | AsymAlgoType.EDDSA => cfg.withEDDSA
  | AsymAlgoType.Unknown => false

/-- Which hash kinds the build supports (from the `#ifdef` structure of the
switch). -/
def hashSupported (cfg : BuildConfig) : HashAlgoType → Bool
  | HashAlgoType.GOST => cfg.withGOST
  | HashAlgoType.Unknown => false
  | _ => true

/-- Which MAC kinds the build supports (from the `#ifdef` structure of the
switch). -/
def macSupported (cfg : BuildConfig) : MacAlgoType → Bool
  | MacAlgoType.HMAC_GOST => cfg.withGOST
  | MacAlgoType.Unknown => false
  | _ => true

/-! ## Helper lemmas -/

/-- With `DISABLE_DLCLOSE` defined, unloading performs no external call. -/
theorem unload_events_nil (s : TpmGlobals) : (tpm2_tcti_ldr_unload s).2 = [] := by
  unfold tpm2_tcti_ldr_unload DISABLE_DLCLOSE
  split <;> simp

/-- After an unload the plugin handle is always clear. -/
theorem unload_handle_none (s : TpmGlobals) :
    (tpm2_tcti_ldr_unload s).1.handle = none := by
  obtain ⟨h, i, t⟩ := s
  cases h <;> simp [tpm2_tcti_ldr_unload]

/-! ## Claim theorems -/

/-- C10: `tpm2_tcti_ldr_is_tcti_present` leaves the loader's process-wide
state (plugin handle, cached info pointer, transport context) unchanged; it
returns whether opening the module named by the fixed naming convention
succeeded, and closes the locally opened module immediately. -/
theorem is_tcti_present_pure (name : String) (fmtOutcome : Option Nat)
    (s : TpmGlobals) :
    ((tpm2_tcti_ldr_is_tcti_present name fmtOutcome s).2.1 = s)
  ∧ ((tpm2_tcti_ldr_is_tcti_present name fmtOutcome s).1
      = (tpm2_tcti_ldr_dlopen name fmtOutcome).isSome)
  ∧ ((tpm2_tcti_ldr_is_tcti_present name fmtOutcome s).2.2
      = if (tpm2_tcti_ldr_dlopen name fmtOutcome).isSome
        then [Event.dlcloseEv] else []) :=
  ⟨rfl, rfl, rfl⟩

/-- C4: a `tpm2_tcti_ldr_load` call while the loaded-plugin handle is
non-null fails immediately, returning no context, performing no external
call, and leaving the loader state (handle, info pointer, transport
context) untouched. -/
theorem load_while_active_rejected (path : String) (env : LoadEnv)
    (s : TpmGlobals) (h : s.handle.isSome = true) :
    tpm2_tcti_ldr_load path env s = (none, s, []) := by
  unfold tpm2_tcti_ldr_load
  rw [if_pos h]

/-- Witness for C4 at a concrete loaded state. -/
theorem load_while_active_rejected_witness :
    tpm2_tcti_ldr_load tabrmd ⟨some 9, none, true, 1, 0, 8, true, 0⟩
      ⟨some 5, some 2, some ⟨4⟩⟩
    = (none, ⟨some 5, some 2, some ⟨4⟩⟩, []) :=
  load_while_active_rejected tabrmd ⟨some 9, none, true, 1, 0, 8, true, 0⟩
    ⟨some 5, some 2, some ⟨4⟩⟩ rfl

/-- C9: `tpm2_tcti_ldr_unload` clears the loader's handle and info-pointer
bookkeeping, never calls `dlclose` (the deliberate `DISABLE_DLCLOSE`
policy), is idempotent (a second call is a no-op, so calling twice equals
calling once), is a no-op when no handle is held, and leaves the state able
to accept a later load (a load with working outcomes succeeds). -/
theorem tcti_ldr_unload_idempotent (s : TpmGlobals) :
    ((tpm2_tcti_ldr_unload s).1.handle = none)
  ∧ (s.handle.isSome = true → (tpm2_tcti_ldr_unload s).1.info = none)
  ∧ ((tpm2_tcti_ldr_unload s).1.tcti = s.tcti)
  ∧ (Event.dlcloseEv ∉ (tpm2_tcti_ldr_unload s).2)
  ∧ (tpm2_tcti_ldr_unload (tpm2_tcti_ldr_unload s).1
      = ((tpm2_tcti_ldr_unload s).1, []))
  ∧ (s.handle = none → tpm2_tcti_ldr_unload s = (s, []))
  ∧ ((tpm2_tcti_ldr_load tabrmd ⟨some 9, none, true, 1, 0, 8, true, 0⟩
        (tpm2_tcti_ldr_unload s).1).1 = some ⟨8⟩) := by
  obtain ⟨h, i, t⟩ := s
  cases h <;>
    simp [tpm2_tcti_ldr_unload, tpm2_tcti_ldr_load, DISABLE_DLCLOSE,
          TPM2_RC_SUCCESS]

/-- Witness for C9: unloading a loaded state clears the info pointer. -/
theorem tcti_ldr_unload_idempotent_witness :
    (tpm2_tcti_ldr_unload ⟨some 5, some 2, some ⟨4⟩⟩).1.info = none :=
  (tcti_ldr_unload_idempotent ⟨some 5, some 2, some ⟨4⟩⟩).2.1 rfl

/-- C2 (failing input): when the initializer's second (allocated-buffer)
call — or its first (sizing) call — returns a non-success status, the load
frees any allocated buffer, `dlclose`s the module and creates no context,
but the loader's process-wide state does NOT return to empty: the `handle`
and `info` statics keep their values, so a subsequent load attempt with
fully valid parameters is rejected instead of succeeding. -/
theorem load_error_path_leaves_stale_loader_state :
    (tpm2_tcti_ldr_load tabrmd ⟨some 7, none, true, 3, 0, 42, true, 1⟩
        ⟨none, none, none⟩
      = (none, ⟨some 7, some 3, none⟩,
         [Event.callocBuf 42, Event.freeBuf, Event.dlcloseEv]))
  ∧ (tpm2_tcti_ldr_load tabrmd ⟨some 7, none, true, 3, 1, 0, true, 0⟩
        ⟨none, none, none⟩
      = (none, ⟨some 7, some 3, none⟩, [Event.dlcloseEv]))
  ∧ ((tpm2_tcti_ldr_load tabrmd ⟨some 7, none, true, 3, 0, 42, true, 0⟩
        ⟨some 7, some 3, none⟩).1 = none) := by
  decide

/-- C7: every dispatch function returns a non-null product exactly for the
kinds the build supports, logs and returns null for every unknown or
unsupported kind, and never substitutes a default: in particular
`getSymmetricAlgorithm(AES)` is always the AES product and
`getHashAlgorithm(Unknown)` is always null. -/
theorem dispatch_exhaustive_no_default (cfg : BuildConfig) :
    (∀ k, ((getSymmetricAlgorithm k).1.isSome = symSupported k)
        ∧ ((getSymmetricAlgorithm k).2 = !symSupported k))
  ∧ ((getSymmetricAlgorithm SymAlgoType.AES).1 = some SymProduct.OSSLAES)
  ∧ (∀ k, ((getAsymmetricAlgorithm cfg k).1.isSome = asymSupported cfg k)
        ∧ ((getAsymmetricAlgorithm cfg k).2 = !asymSupported cfg k))
  ∧ (∀ k, ((getHashAlgorithm cfg k).1.isSome = hashSupported cfg k)
        ∧ ((getHashAlgorithm cfg k).2 = !hashSupported cfg k))
  ∧ ((getHashAlgorithm cfg HashAlgoType.Unknown).1 = none)
  ∧ (∀ k, ((getMacAlgorithm cfg k).1.isSome = macSupported cfg k)
        ∧ ((getMacAlgorithm cfg k).2 = !macSupported cfg k)) := by
  obtain ⟨e, go, ed⟩ := cfg
  refine ⟨fun k => ?_, rfl, fun k => ?_, fun k => ?_, rfl, fun k => ?_⟩ <;>
    cases k <;> cases e <;> cases go <;> cases ed <;> exact ⟨rfl, rfl⟩

/-- C8: `i()` is idempotent — the first call fills the empty slot with the
newly constructed instance and every later call without an intervening
`reset()` returns that same instance and state; `reset()` clears the slot;
and the next `i()` after a reset constructs a fresh instance, distinct from
the one torn down. -/
theorem singleton_idempotent_reset (s : SingletonState) :
    ((OSSLCryptoFactory.i s).2.instSlot = some (OSSLCryptoFactory.i s).1)
  ∧ (OSSLCryptoFactory.i (OSSLCryptoFactory.i s).2
      = ((OSSLCryptoFactory.i s).1, (OSSLCryptoFactory.i s).2))
  ∧ (s.instSlot = none → (OSSLCryptoFactory.i s).1 = s.nextId)
  ∧ ((OSSLCryptoFactory.reset s).instSlot = none)
  ∧ (∀ x, s.instSlot = some x → x < s.nextId →
      ((OSSLCryptoFactory.i (OSSLCryptoFactory.reset s)).1 ≠ x)
    ∧ ((OSSLCryptoFactory.i (OSSLCryptoFactory.reset s)).2.instSlot
        = some (OSSLCryptoFactory.i (OSSLCryptoFactory.reset s)).1)) := by
  obtain ⟨slot, nid⟩ := s
  cases slot
  · simp [OSSLCryptoFactory.i, OSSLCryptoFactory.reset]
  · simp [OSSLCryptoFactory.i, OSSLCryptoFactory.reset]
    omega

/-- Witness for C8: after resetting the slot holding instance 0, the next
`i()` yields a different instance. -/
theorem singleton_idempotent_reset_witness :
    (OSSLCryptoFactory.i (OSSLCryptoFactory.reset ⟨some 0, 1⟩)).1 ≠ 0 :=
  ((singleton_idempotent_reset ⟨some 0, 1⟩).2.2.2.2 0 rfl (by decide)).1

/-- C5: the locking callback is a logged no-op whenever the unsigned
reinterpretation of `n` reaches the pool size — in particular for every
negative 32-bit `n` when the pool is of any realistic size — and otherwise
acquires the primitive at index `n` when the `CRYPTO_LOCK` bit of `mode` is
set and releases it otherwise, touching no other index. -/
theorem lock_callback_correct (mode : Nat) (n : Int) (g : GlobalState)
    (hlen : g.locks.length = g.nlocks) :
    (g.nlocks ≤ uint_of_int n → lock_callback mode n g = (g, true))
  ∧ (n < 0 → -2147483648 ≤ n → g.nlocks ≤ 2147483648 →
      lock_callback mode n g = (g, true))
  ∧ (uint_of_int n < g.nlocks →
      ((lock_callback mode n g).2 = false)
    ∧ (((lock_callback mode n g).1.locks)[uint_of_int n]?
        = some (decide (Nat.land mode CRYPTO_LOCK ≠ 0)))
    ∧ (∀ j, j ≠ uint_of_int n →
        ((lock_callback mode n g).1.locks)[j]? = g.locks[j]?)) := by
  have hrange : g.nlocks ≤ 2147483648 → n < 0 → -2147483648 ≤ n →
      g.nlocks ≤ uint_of_int n := by
    intro h1 h2 h3
    unfold uint_of_int
    omega
  refine ⟨?_, ?_, ?_⟩
  · intro h
    unfold lock_callback
    rw [if_pos h]
  · intro h1 h2 h3
    unfold lock_callback
    rw [if_pos (hrange h3 h1 h2)]
  · intro h
    have hlt : uint_of_int n < g.locks.length := by omega
    unfold lock_callback
    rw [if_neg (by omega)]
    by_cases hm : Nat.land mode CRYPTO_LOCK ≠ 0
    · rw [if_pos hm]
      refine ⟨rfl, ?_, ?_⟩
      · rw [List.getElem?_set_eq_of_lt _ hlt]
        simp [hm]
      · intro j hj
        exact List.getElem?_set_ne (Ne.symm hj)
    · rw [if_neg hm]
      refine ⟨rfl, ?_, ?_⟩
      · rw [List.getElem?_set_eq_of_lt _ hlt]
        simp [hm]
      · intro j hj
        exact List.getElem?_set_ne (Ne.symm hj)

/-- Witness for C5: acquiring lock 0 in a pool of one unheld mutex marks it
held. -/
theorem lock_callback_correct_witness :
    ((lock_callback 1 0 ⟨1, [false], none, ⟨none, none, none⟩⟩).1.locks)[uint_of_int 0]?
      = some (decide (Nat.land 1 CRYPTO_LOCK ≠ 0)) :=
  ((lock_callback_correct 1 0 ⟨1, [false], none, ⟨none, none, none⟩⟩ rfl).2.2
    (by decide)).2.1

/-- The TPM/GOST part of the constructor never changes the locking-callback
slot it was handed. -/
theorem construct_tpm_gost_lockCb (env : CtorEnv) (f : OSSLCryptoFactory)
    (g : GlobalState) (steps : List CtorStep) :
    (construct_tpm_gost env f g steps).2.1.lockCb = g.lockCb := by
  rcases hl : (tpm2_tcti_ldr_load tabrmd env.tpmLoad g.tpm).1 with _ | c
  all_goals simp only [construct_tpm_gost, hl]
  all_goals repeat' split
  all_goals rfl

/-- The TPM/GOST part of the constructor never changes the
`setLockingCallback` member it was handed. -/
theorem construct_tpm_gost_setLockCb (env : CtorEnv) (f : OSSLCryptoFactory)
    (g : GlobalState) (steps : List CtorStep) :
    (construct_tpm_gost env f g steps).1.setLockingCallback
      = f.setLockingCallback := by
  rcases hl : (tpm2_tcti_ldr_load tabrmd env.tpmLoad g.tpm).1 with _ | c
  all_goals simp only [construct_tpm_gost, hl]
  all_goals repeat' split
  all_goals rfl

/-- When the transport load, the context allocation or the context
initialization fails, the constructor's step trace ends at the
corresponding error log: nothing after the `USE_TPM` block runs. -/
theorem construct_tpm_gost_failure (env : CtorEnv) (f : OSSLCryptoFactory)
    (g : GlobalState) (steps : List CtorStep)
    (h : ((tpm2_tcti_ldr_load tabrmd env.tpmLoad g.tpm).1 = none)
       ∨ env.sysCallocOk = false
       ∨ env.sysInitRc ≠ TSS2_RC_SUCCESS) :
    (construct_tpm_gost env f g steps).2.2
      = steps ++ [CtorStep.tpmAttempt]
        ++ (if (tpm2_tcti_ldr_load tabrmd env.tpmLoad g.tpm).1 = none
            then [CtorStep.logTpmFailed1]
            else if env.sysCallocOk = false then [CtorStep.logTpmFailed2]
            else [CtorStep.logTpmFailed3]) := by
  rcases hl : (tpm2_tcti_ldr_load tabrmd env.tpmLoad g.tpm).1 with _ | c
  · simp [construct_tpm_gost, hl]
  · cases hc : env.sysCallocOk
    · simp [construct_tpm_gost, hl, hc]
    · have hrc : env.sysInitRc ≠ TSS2_RC_SUCCESS := by
        rcases h with h | h | h
        · rw [hl] at h; exact absurd h (by simp)
        · rw [hc] at h; exact absurd h (by simp)
        · exact h
      simp [construct_tpm_gost, hl, hc, hrc]

/-- C1 (amended): a failure of the transport load, the command-context
allocation or the command-context initialization is logged and leaves the
hardware capability absent (`tpmOk` is never reached), but it aborts the
remaining construction: the GOST engine bring-up is not executed. -/
theorem construct_tpm_failure_skips_rest (env : CtorEnv) (g0 : GlobalState)
    (h : ((tpm2_tcti_ldr_load tabrmd env.tpmLoad g0.tpm).1 = none)
       ∨ env.sysCallocOk = false
       ∨ env.sysInitRc ≠ TSS2_RC_SUCCESS) :
    ((CtorStep.logTpmFailed1 ∈ (OSSLCryptoFactory.construct env g0).2.2)
      ∨ (CtorStep.logTpmFailed2 ∈ (OSSLCryptoFactory.construct env g0).2.2)
      ∨ (CtorStep.logTpmFailed3 ∈ (OSSLCryptoFactory.construct env g0).2.2))
  ∧ (CtorStep.tpmOk ∉ (OSSLCryptoFactory.construct env g0).2.2)
  ∧ (CtorStep.gostAttempt ∉ (OSSLCryptoFactory.construct env g0).2.2) := by
  have htr : (OSSLCryptoFactory.construct env g0).2.2
      = [CtorStep.lockSetup, CtorStep.rdrandSetup, CtorStep.rngCreate]
        ++ [CtorStep.tpmAttempt]
        ++ (if (tpm2_tcti_ldr_load tabrmd env.tpmLoad g0.tpm).1 = none
            then [CtorStep.logTpmFailed1]
            else if env.sysCallocOk = false then [CtorStep.logTpmFailed2]
            else [CtorStep.logTpmFailed3]) := by
    unfold OSSLCryptoFactory.construct
    exact construct_tpm_gost_failure env _ _ _ h
  rw [htr]
  split
  · simp
  · split
    · simp
    · simp

/-- Counterexample to C1 as stated: a concrete construction run in which
the transport load fails (both `dlopen` attempts fail), the failure is
logged — and the GOST engine bring-up is NOT executed, contradicting the
claim that the remaining construction steps still run. -/
theorem construct_tpm_failure_gost_skipped_cex :
    ((tpm2_tcti_ldr_load tabrmd
        (⟨1, false, ⟨none, none, true, 0, 0, 0, true, 0⟩, 16, true, 0,
          true, true, true, true, true⟩ : CtorEnv).tpmLoad
        (⟨0, [], none, ⟨none, none, none⟩⟩ : GlobalState).tpm).1 = none)
  ∧ (CtorStep.logTpmFailed1 ∈
      (OSSLCryptoFactory.construct
        ⟨1, false, ⟨none, none, true, 0, 0, 0, true, 0⟩, 16, true, 0,
          true, true, true, true, true⟩
        ⟨0, [], none, ⟨none, none, none⟩⟩).2.2)
  ∧ (CtorStep.gostAttempt ∉
      (OSSLCryptoFactory.construct
        ⟨1, false, ⟨none, none, true, 0, 0, 0, true, 0⟩, 16, true, 0,
          true, true, true, true, true⟩
        ⟨0, [], none, ⟨none, none, none⟩⟩).2.2) := by
  decide

/-- Witness for C1 (amended) at a concrete run where the context
allocation fails. -/
theorem construct_tpm_failure_skips_rest_witness :
    CtorStep.gostAttempt ∉
      (OSSLCryptoFactory.construct
        ⟨1, true, ⟨some 7, none, true, 3, 0, 42, true, 0⟩, 16, false, 0,
          true, true, true, true, true⟩
        ⟨0, [], none, ⟨none, none, none⟩⟩).2.2 :=
  (construct_tpm_failure_skips_rest
    ⟨1, true, ⟨some 7, none, true, 3, 0, 42, true, 0⟩, 16, false, 0,
      true, true, true, true, true⟩
    ⟨0, [], none, ⟨none, none, none⟩⟩ (Or.inr (Or.inl rfl))).2.2

/-- C3: with a hardware command context present, teardown retrieves the
nested transport context (absent when retrieval fails), then finalizes the
command context and frees its buffer, then — only when a nested context was
retrieved — finalizes and frees it, and finally enters the transport
loader's unload path; in particular the nested transport context is
finalized strictly before the loader state is cleared. -/
theorem destruct_teardown_order (f : OSSLCryptoFactory) (env : DtorEnv)
    (g : GlobalState) (_h : f.context.isSome = true) :
    ((OSSLCryptoFactory.destruct f env g).2
      = [Event.getTctiCtx, Event.sysFinalize, Event.freeSysContext]
        ++ (if (if env.getTctiRc = TSS2_RC_SUCCESS
                then env.retrievedTcti else none).isSome
            then [Event.tctiFinalize, Event.freeTctiCtx] else [])
        ++ [Event.ldrUnloadEv])
  ∧ ((if env.getTctiRc = TSS2_RC_SUCCESS
        then env.retrievedTcti else none).isSome = true →
      ∃ (i j : Nat), i < j
        ∧ ((OSSLCryptoFactory.destruct f env g).2)[i]? = some Event.tctiFinalize
        ∧ ((OSSLCryptoFactory.destruct f env g).2)[j]? = some Event.ldrUnloadEv) := by
  have htr : (OSSLCryptoFactory.destruct f env g).2
      = [Event.getTctiCtx, Event.sysFinalize, Event.freeSysContext]
        ++ (if (if env.getTctiRc = TSS2_RC_SUCCESS
                then env.retrievedTcti else none).isSome
            then [Event.tctiFinalize, Event.freeTctiCtx] else [])
        ++ [Event.ldrUnloadEv] := by
    simp [OSSLCryptoFactory.destruct, unload_events_nil]
  refine ⟨htr, fun h2 => ⟨3, 5, by omega, ?_, ?_⟩⟩ <;>
    rw [htr, if_pos h2] <;> rfl

/-- Witness for C3 at a concrete state whose command context exists and
whose nested transport context is retrieved. -/
theorem destruct_teardown_order_witness :
    ∃ (i j : Nat), i < j
      ∧ ((OSSLCryptoFactory.destruct ⟨true, none, true, some 16, none, none⟩
            ⟨0, some ⟨8⟩⟩
            ⟨1, [false], some CbOwner.ours, ⟨some 7, some 3, some ⟨8⟩⟩⟩).2)[i]?
          = some Event.tctiFinalize
      ∧ ((OSSLCryptoFactory.destruct ⟨true, none, true, some 16, none, none⟩
            ⟨0, some ⟨8⟩⟩
            ⟨1, [false], some CbOwner.ours, ⟨some 7, some 3, some ⟨8⟩⟩⟩).2)[j]?
          = some Event.ldrUnloadEv :=
  (destruct_teardown_order ⟨true, none, true, some 16, none, none⟩
    ⟨0, some ⟨8⟩⟩
    ⟨1, [false], some CbOwner.ours, ⟨some 7, some 3, some ⟨8⟩⟩⟩ rfl).2 (by decide)

/-- C6: the constructor installs the locking callback only into an empty
slot, recording in `setLockingCallback` whether it did; the destructor
clears the slot exactly when that flag is set, so a callback installed by
another component is never overridden at construction and never removed at
teardown. -/
theorem locking_callback_conditional (env : CtorEnv) (g0 : GlobalState)
    (denv : DtorEnv) :
    ((OSSLCryptoFactory.construct env g0).2.1.lockCb
      = some (g0.lockCb.getD CbOwner.ours))
  ∧ ((OSSLCryptoFactory.construct env g0).1.setLockingCallback
      = g0.lockCb.isNone)
  ∧ ((OSSLCryptoFactory.destruct (OSSLCryptoFactory.construct env g0).1 denv
        (OSSLCryptoFactory.construct env g0).2.1).1.lockCb
      = if g0.lockCb.isNone then none else g0.lockCb) := by
  have h1 : (OSSLCryptoFactory.construct env g0).2.1.lockCb
      = if g0.lockCb.isNone then some CbOwner.ours else g0.lockCb := by
    simp only [OSSLCryptoFactory.construct, construct_tpm_gost_lockCb]
  have h2 : (OSSLCryptoFactory.construct env g0).1.setLockingCallback
      = g0.lockCb.isNone := by
    simp only [OSSLCryptoFactory.construct, construct_tpm_gost_setLockCb]
  have h3 : ∀ (f : OSSLCryptoFactory) (g : GlobalState),
      (OSSLCryptoFactory.destruct f denv g).1.lockCb
        = if f.setLockingCallback then none else g.lockCb := fun f g => rfl
  refine ⟨?_, h2, ?_⟩
  · rw [h1]
    cases g0.lockCb <;> simp
  · rw [h3, h2, h1]
    cases g0.lockCb <;> simp

end OSSLSpec
